import Mathlib

/-!
Verification of the NanoClaw L2 gateway core (src/nanoclaw/server.py):
the `SensorBuffer` in-memory buffer, the `/batch` batch-formation endpoint
(`create_batch`) and the `/offline-queue/retry` endpoint
(`retry_offline_queue`), embedded shallowly with explicit state passing.

The buffer code never inspects the fields of a sensor reading, so the whole
development is parametric in the reading type `R` (`SensorReading` in the
source is a pydantic record of node_id, sensor_type, value, unit, timestamp).
The simulated upload (`await asyncio.sleep(0.1)` standing in for an HTTP POST
to MoltClaw) is modelled by an outcome oracle: a `Bool` for the single upload
of `create_batch`, a `BatchReport R → Bool` for the per-batch attempts of
`retry_offline_queue`.
-/

namespace Nanoclaw

/-- `BatchReport` (server.py): gateway id, the aggregated readings in FIFO
order, and the formation timestamp (modelled as a `Nat`). -/
structure BatchReport (R : Type) where
  gateway_id : String
  readings : List R
  batch_timestamp : Nat
deriving DecidableEq

/-- The mutable state of `SensorBuffer` (server.py): the deque of readings
(with its `maxlen`, here `max_size`), the batch threshold, and the offline
queue of failed batches. The deque is represented as a `List R`, front =
oldest. -/
structure SensorBuffer (R : Type) where
  max_size : Nat
  buffer : List R
  batch_threshold : Nat
  offline_queue : List (BatchReport R)
deriving DecidableEq

variable {R : Type}

/-- `SensorBuffer.add_reading`: `self.buffer.append(reading)` on a
`deque(maxlen=max_size)` — append on the right; when the deque is full the
leftmost (oldest) element is discarded. Dropping `length - max_size` from
the front after appending is exactly the deque `maxlen` behaviour
(including `maxlen=0`, where every append is discarded immediately). -/
def add_reading (st : SensorBuffer R) (r : R) : SensorBuffer R :=
  let b := st.buffer ++ [r]
  { st with buffer := b.drop (b.length - st.max_size) }

/-- `SensorBuffer.get_readings(limit=None)`: `list(self.buffer)[:limit] if
limit else list(self.buffer)`. Note the Python truthiness test `if limit:`:
`limit=0` (and `limit=None`) returns the whole buffer, and a negative
`limit` slices from the end (`l[:k]` with `k < 0` keeps the first
`len(l)+k` elements, clamped at 0). -/
def get_readings (st : SensorBuffer R) (limit : Option Int) : List R :=
  match limit with
  | none => st.buffer
  | some l =>
    if l = 0 then st.buffer
    else if 0 < l then st.buffer.take l.toNat
    else st.buffer.take ((st.buffer.length + l).toNat)

/-- `SensorBuffer.clear_readings(count)`: pops `min(count, len(buffer))`
elements from the left (oldest first). -/
def clear_readings (st : SensorBuffer R) (count : Nat) : SensorBuffer R :=
  { st with buffer := st.buffer.drop (min count st.buffer.length) }

/-- `SensorBuffer.should_batch_upload`: `len(self.buffer) >= self.batch_threshold`. -/
def should_batch_upload (st : SensorBuffer R) : Bool :=
  st.batch_threshold ≤ st.buffer.length

/-- `SensorBuffer.queue_offline(batch)`: `self.offline_queue.append(batch)`. -/
def queue_offline (st : SensorBuffer R) (batch : BatchReport R) : SensorBuffer R :=
  { st with offline_queue := st.offline_queue ++ [batch] }

/-- `SensorBuffer.get_offline_queue`: returns `self.offline_queue`. -/
def get_offline_queue (st : SensorBuffer R) : List (BatchReport R) :=
  st.offline_queue

/-- `SensorBuffer.clear_offline_queue`: `self.offline_queue.clear()`. -/
def clear_offline_queue (st : SensorBuffer R) : SensorBuffer R :=
  { st with offline_queue := [] }

/-- Outcome of the `POST /batch` handler: either an `HTTPException`
(status code and detail string) or the success body (batch size and the
batch timestamp). -/
inductive CreateBatchResult where
  | httpError (statusCode : Nat) (detail : String)
  | uploaded (batch_size : Nat) (timestamp : Nat)
deriving DecidableEq

/-- The `POST /batch` handler `create_batch` (server.py): refuse with a 400
if the buffer is empty; otherwise snapshot the whole buffer into a
`BatchReport` (via `get_readings()` with no limit) and attempt the upload.
On success clear `len(batch.readings)` readings from the front; on failure
append the batch to the offline queue and report a 503. `uploadOk` is the
outcome of the (simulated) upload; `now` the fresh formation timestamp. -/
def create_batch (st : SensorBuffer R) (uploadOk : Bool) (now : Nat) :
    CreateBatchResult × SensorBuffer R :=
  if st.buffer.length = 0 then
    (.httpError 400 "Buffer is empty", st)
  else
    let batch : BatchReport R :=
      { gateway_id := "nanoclaw_gateway_001"
        readings := get_readings st none
        batch_timestamp := now }
    if uploadOk then
      (.uploaded batch.readings.length now, clear_readings st batch.readings.length)
    else
      (.httpError 503 "L3 unreachable, queued for retry", queue_offline st batch)

/-- Body of the `POST /offline-queue/retry` response. The empty-queue early
return is `{"status": "no_batches", "uploaded": 0}` — it carries no
`failed` field, hence `failed : Option Nat`. -/
structure RetryResult where
  status : String
  uploaded : Nat
  failed : Option Nat
deriving DecidableEq

/-- The `for batch in queue:` loop of `retry_offline_queue`: each batch is
attempted once; on success `uploaded_count` is incremented, on failure the
batch is appended to `failed_batches`. -/
def retryLoop (ok : BatchReport R → Bool) (pending : List (BatchReport R))
    (uploaded : Nat) (failed : List (BatchReport R)) :
    Nat × List (BatchReport R) :=
  match pending with
  | [] => (uploaded, failed)
  | b :: rest =>
    if ok b then retryLoop ok rest (uploaded + 1) failed
    else retryLoop ok rest uploaded (failed ++ [b])

/-- The `POST /offline-queue/retry` handler (server.py): empty queue →
`no_batches` early return; otherwise run the loop and replace
`offline_queue` by `failed_batches`. `ok` gives each batch's upload
outcome. -/
def retry_offline_queue (st : SensorBuffer R) (ok : BatchReport R → Bool) :
    RetryResult × SensorBuffer R :=
  let queue := get_offline_queue st
  if queue.isEmpty then
    ({ status := "no_batches", uploaded := 0, failed := none }, st)
  else
    let r := retryLoop ok queue 0 []
    ({ status := "completed", uploaded := r.1, failed := some r.2.length },
     { st with offline_queue := r.2 })

/-- The retry loop under asyncio interleaving. `retry_offline_queue`
iterates `queue = sensor_buffer.get_offline_queue()`, which aliases the
live `offline_queue` list; a concurrent handler (e.g. a `create_batch`
failure) that runs during one of the loop's `await`s appends to that same
list, and Python's list iterator then also visits the appended element.
`apps` gives, for each iteration's `await`, the batches appended to the
live list during that suspension (appends can only happen at an `await`,
i.e. once per iteration); once the schedule is exhausted the remaining
iterations run without interference, i.e. as the plain `retryLoop`. -/
def retryLoopC (ok : BatchReport R → Bool) (pending : List (BatchReport R))
    (apps : List (List (BatchReport R))) (uploaded : Nat)
    (failed : List (BatchReport R)) : Nat × List (BatchReport R) :=
  match apps, pending with
  | _, [] => (uploaded, failed)
  | [], b :: rest =>
    if ok b then retryLoop ok rest (uploaded + 1) failed
    else retryLoop ok rest uploaded (failed ++ [b])
  | a :: as, b :: rest =>
    if ok b then retryLoopC ok (rest ++ a) as (uploaded + 1) failed
    else retryLoopC ok (rest ++ a) as uploaded (failed ++ [b])

/-- `retry_offline_queue` with concurrent appends interleaved at the loop's
suspension points. After the loop, `sensor_buffer.offline_queue =
failed_batches` overwrites the live list (the concurrently appended batches
were already visited by the loop, being behind the iterator's cursor in the
same list object). -/
def retry_offline_queue_concurrent (st : SensorBuffer R)
    (ok : BatchReport R → Bool) (apps : List (List (BatchReport R))) :
    RetryResult × SensorBuffer R :=
  let queue := get_offline_queue st
  if queue.isEmpty then
    ({ status := "no_batches", uploaded := 0, failed := none }, st)
  else
    let r := retryLoopC ok queue apps 0 []
    ({ status := "completed", uploaded := r.1, failed := some r.2.length },
     { st with offline_queue := r.2 })

/-! ### Helper lemmas -/

/-- Folding `add_reading` over a list of readings keeps the last
`max_size` elements of the concatenation (deque `maxlen` semantics),
provided the buffer respects its bound to begin with. -/
theorem foldl_add_reading (rs : List R) (m t : Nat) (q : List (BatchReport R)) :
    ∀ b : List R, b.length ≤ m →
      List.foldl add_reading (⟨m, b, t, q⟩ : SensorBuffer R) rs =
        ⟨m, (b ++ rs).drop (b.length + rs.length - m), t, q⟩ := by
  induction rs with
  | nil =>
    intro b h
    simp [Nat.sub_eq_zero_of_le h]
  | cons r rest ih =>
    intro b h
    have hstep : add_reading (⟨m, b, t, q⟩ : SensorBuffer R) r =
        ⟨m, (b ++ [r]).drop (b.length + 1 - m), t, q⟩ := by
      simp [add_reading]
    have hlen : ((b ++ [r]).drop (b.length + 1 - m)).length ≤ m := by
      simp only [List.length_drop, List.length_append, List.length_cons,
        List.length_nil]
      omega
    rw [List.foldl_cons, hstep, ih _ hlen]
    have hk : b.length + 1 - m ≤ (b ++ [r]).length := by
      simp only [List.length_append, List.length_cons, List.length_nil]
      omega
    have hsplit : (b ++ [r]).drop (b.length + 1 - m) ++ rest =
        ((b ++ [r]) ++ rest).drop (b.length + 1 - m) :=
      (List.drop_append_of_le_length hk).symm
    have hlist : b ++ r :: rest = (b ++ [r]) ++ rest := by
      simp
    have hdrop : ((b ++ [r]).drop (b.length + 1 - m) ++ rest).drop
        (((b ++ [r]).drop (b.length + 1 - m)).length + rest.length - m) =
        (b ++ r :: rest).drop (b.length + (r :: rest).length - m) := by
      rw [hsplit, List.drop_drop, hlist]
      congr 1
      simp only [List.length_drop, List.length_append, List.length_cons,
        List.length_nil]
      omega
    rw [hdrop]

/-- The retry loop counts the batches accepted by the upload oracle and
collects the rejected ones, in order. -/
theorem retryLoop_spec (ok : BatchReport R → Bool) :
    ∀ (pending : List (BatchReport R)) (u : Nat) (f : List (BatchReport R)),
      retryLoop ok pending u f =
        (u + (pending.filter ok).length,
         f ++ pending.filter (fun b => !ok b)) := by
  intro pending
  induction pending with
  | nil => intro u f; simp [retryLoop]
  | cons b rest ih =>
    intro u f
    by_cases hok : ok b = true
    · simp [retryLoop, hok, ih, List.filter_cons]
      omega
    · simp at hok
      simp [retryLoop, hok, ih, List.filter_cons]

/-- With no concurrent appends left, the interleaved loop runs like the
plain loop. -/
theorem retryLoopC_nil (ok : BatchReport R → Bool) :
    ∀ (pending : List (BatchReport R)) (u : Nat) (f : List (BatchReport R)),
      retryLoopC ok pending [] u f = retryLoop ok pending u f := by
  intro pending
  cases pending with
  | nil => intro u f; simp [retryLoopC, retryLoop]
  | cons b rest =>
    intro u f
    by_cases hok : ok b = true
    · simp [retryLoopC, retryLoop, hok]
    · simp at hok
      simp [retryLoopC, retryLoop, hok]

/-- As long as at most one append group arrives per iteration of the
original queue, the interleaved loop processes the original queue followed
by all concurrently appended batches: every batch gets exactly one upload
attempt, successes are counted, failures collected in order. -/
theorem retryLoopC_spec (ok : BatchReport R → Bool) :
    ∀ (apps : List (List (BatchReport R))) (pending : List (BatchReport R))
      (u : Nat) (f : List (BatchReport R)),
      apps.length ≤ pending.length →
      retryLoopC ok pending apps u f =
        (u + ((pending ++ apps.flatten).filter ok).length,
         f ++ (pending ++ apps.flatten).filter (fun b => !ok b)) := by
  intro apps
  induction apps with
  | nil =>
    intro pending u f _
    rw [retryLoopC_nil, retryLoop_spec]
    simp
  | cons a as ih =>
    intro pending u f h
    cases pending with
    | nil => simp at h
    | cons b rest =>
      have h' : as.length ≤ (rest ++ a).length := by
        simp at h ⊢
        omega
      by_cases hok : ok b = true
      · rw [show retryLoopC ok (b :: rest) (a :: as) u f =
            retryLoopC ok (rest ++ a) as (u + 1) f by simp [retryLoopC, hok]]
        rw [ih _ _ _ h']
        simp [List.filter_cons, hok, List.append_assoc]
        omega
      · simp at hok
        rw [show retryLoopC ok (b :: rest) (a :: as) u f =
            retryLoopC ok (rest ++ a) as u (f ++ [b]) by simp [retryLoopC, hok]]
        rw [ih _ _ _ h']
        simp [List.filter_cons, hok, List.append_assoc]

/-! ### Claims -/

/-- Claim C1: if the upload attempted during batch formation fails, every
reading that was in the ingest buffer at snapshot time is still there
afterwards (order unchanged, none evicted), exactly one new batch whose
readings equal the snapshot is appended at the end of the offline queue,
and no other state changes; the caller sees the 503 queued-for-retry
outcome. -/
theorem create_batch_failure_preserves (st : SensorBuffer R) (now : Nat)
    (h : st.buffer ≠ []) :
    (create_batch st false now).2.buffer = st.buffer ∧
    (create_batch st false now).2.offline_queue =
      st.offline_queue ++
        [{ gateway_id := "nanoclaw_gateway_001", readings := st.buffer,
           batch_timestamp := now }] ∧
    (create_batch st false now).2.max_size = st.max_size ∧
    (create_batch st false now).2.batch_threshold = st.batch_threshold ∧
    (create_batch st false now).1 =
      .httpError 503 "L3 unreachable, queued for retry" := by
  have hlen : ¬ st.buffer.length = 0 := by
    simpa using h
  simp [create_batch, hlen, get_readings, queue_offline]

/-- Concrete instance of `create_batch_failure_preserves`: buffer `[1, 2]`,
failing upload. -/
theorem create_batch_failure_preserves_witness :
    (([1, 2] : List Nat) ≠ []) ∧
      ((create_batch (⟨3, [1, 2], 2, []⟩ : SensorBuffer Nat) false 7).2.buffer = [1, 2] ∧
       (create_batch (⟨3, [1, 2], 2, []⟩ : SensorBuffer Nat) false 7).2.offline_queue =
         [] ++ [{ gateway_id := "nanoclaw_gateway_001", readings := [1, 2],
                  batch_timestamp := 7 }] ∧
       (create_batch (⟨3, [1, 2], 2, []⟩ : SensorBuffer Nat) false 7).2.max_size = 3 ∧
       (create_batch (⟨3, [1, 2], 2, []⟩ : SensorBuffer Nat) false 7).2.batch_threshold = 2 ∧
       (create_batch (⟨3, [1, 2], 2, []⟩ : SensorBuffer Nat) false 7).1 =
         .httpError 503 "L3 unreachable, queued for retry") :=
  ⟨by decide, create_batch_failure_preserves _ 7 (by decide)⟩

/-- Claim C2: over any sequence of `add_reading` calls starting from a
buffer within its bound, the ingest buffer never exceeds `max_size`, and
once more than `max_size` readings have been added the buffer holds exactly
the most recent `max_size` of them in insertion order (the oldest have been
evicted). `add_reading` is a total function: it never fails or rejects. -/
theorem add_reading_bounded_fifo (st : SensorBuffer R) (rs : List R)
    (h : st.buffer.length ≤ st.max_size) :
    (List.foldl add_reading st rs).buffer.length ≤ st.max_size ∧
    (st.max_size < rs.length →
      (List.foldl add_reading st rs).buffer =
        rs.drop (rs.length - st.max_size)) := by
  obtain ⟨m, b, t, q⟩ := st
  simp only at h
  rw [foldl_add_reading rs m t q b h]
  constructor
  · simp only [List.length_drop, List.length_append]
    omega
  · intro hgt
    simp only at hgt
    have hamt : b.length + rs.length - m = b.length + (rs.length - m) := by
      omega
    simp only [hamt, List.drop_append]

/-- Concrete instance of `add_reading_bounded_fifo`: four readings into an
empty buffer of capacity three leave the last three. -/
theorem add_reading_bounded_fifo_witness :
    (([] : List Nat).length ≤ 3) ∧
      ((List.foldl add_reading (⟨3, [], 2, []⟩ : SensorBuffer Nat)
          [1, 2, 3, 4]).buffer.length ≤ 3 ∧
       (3 < ([1, 2, 3, 4] : List Nat).length →
        (List.foldl add_reading (⟨3, [], 2, []⟩ : SensorBuffer Nat)
          [1, 2, 3, 4]).buffer =
          ([1, 2, 3, 4] : List Nat).drop (([1, 2, 3, 4] : List Nat).length - 3))) :=
  ⟨by decide, add_reading_bounded_fifo _ [1, 2, 3, 4] (by decide)⟩

/-- Counterexample to claim C3 as stated: with `max_size = 1` and buffer
`[0]`, snapshotting, then adding reading `1` (which evicts `0` to respect
the bound), then clearing the snapshot's length leaves the buffer empty —
not `[1]`, the list of readings added after the snapshot. -/
theorem snapshot_clear_roundtrip_cex :
    (clear_readings
        (List.foldl add_reading (⟨1, [0], 1, []⟩ : SensorBuffer Nat) [1])
        (get_readings (⟨1, [0], 1, []⟩ : SensorBuffer Nat) none).length).buffer
      ≠ [1] := by
  decide

/-- Claim C3 (amended): provided the intervening adds do not overflow the
buffer (snapshot length plus number of added readings stays within
`max_size`), taking a snapshot with `get_readings()` and later calling
`clear_readings` with the snapshot's length leaves exactly the readings
added after the snapshot, in FIFO order. -/
theorem snapshot_clear_roundtrip (st : SensorBuffer R) (rs : List R)
    (h : st.buffer.length + rs.length ≤ st.max_size) :
    (clear_readings (List.foldl add_reading st rs)
        (get_readings st none).length).buffer = rs := by
  obtain ⟨m, b, t, q⟩ := st
  simp only at h
  simp only [get_readings]
  rw [foldl_add_reading rs m t q b (by omega)]
  have h0 : b.length + rs.length - m = 0 := by omega
  have hmin : min b.length (b ++ rs).length = b.length := by
    simp only [List.length_append]
    omega
  simp only [clear_readings, h0, List.drop_zero, hmin, List.drop_left]

/-- Concrete instance of `snapshot_clear_roundtrip`: buffer `[9]` of
capacity four, snapshot, add `[1, 2]`, clear the snapshot length. -/
theorem snapshot_clear_roundtrip_witness :
    (([9] : List Nat).length + ([1, 2] : List Nat).length ≤ 4) ∧
      (clear_readings
          (List.foldl add_reading (⟨4, [9], 2, []⟩ : SensorBuffer Nat) [1, 2])
          (get_readings (⟨4, [9], 2, []⟩ : SensorBuffer Nat) none).length).buffer
        = [1, 2] :=
  ⟨by decide, snapshot_clear_roundtrip _ [1, 2] (by decide)⟩

/-- Claim C4: on a non-empty offline queue, `retry_offline_queue` attempts
each queued batch exactly once, keeps exactly the batches whose upload
failed (in order), drops the successful ones, and reports an uploaded
count and a failed count summing to the initial queue length. -/
theorem retry_offline_queue_spec (st : SensorBuffer R)
    (ok : BatchReport R → Bool) (h : st.offline_queue ≠ []) :
    (retry_offline_queue st ok).1.status = "completed" ∧
    (retry_offline_queue st ok).1.uploaded =
      (st.offline_queue.filter ok).length ∧
    (retry_offline_queue st ok).1.failed =
      some (st.offline_queue.filter (fun b => !ok b)).length ∧
    (retry_offline_queue st ok).2.offline_queue =
      st.offline_queue.filter (fun b => !ok b) ∧
    (retry_offline_queue st ok).1.uploaded +
        (st.offline_queue.filter (fun b => !ok b)).length =
      st.offline_queue.length := by
  have hne : st.offline_queue.isEmpty = false := by
    simp [List.isEmpty_iff, h]
  have hsum := List.length_eq_length_filter_add (l := st.offline_queue) ok
  simp [retry_offline_queue, get_offline_queue, hne, retryLoop_spec]
  omega

/-- Concrete instance of `retry_offline_queue_spec`: two queued batches,
the one holding `[2]` uploads, the one holding `[1]` fails again. -/
theorem retry_offline_queue_spec_witness :
    (([⟨"g", [1], 0⟩, ⟨"g", [2], 0⟩] : List (BatchReport Nat)) ≠ []) ∧
      ((retry_offline_queue
          (⟨3, [], 2, [⟨"g", [1], 0⟩, ⟨"g", [2], 0⟩]⟩ : SensorBuffer Nat)
          (fun b => b.readings == [2])).1.status = "completed" ∧
       (retry_offline_queue
          (⟨3, [], 2, [⟨"g", [1], 0⟩, ⟨"g", [2], 0⟩]⟩ : SensorBuffer Nat)
          (fun b => b.readings == [2])).1.uploaded =
         (([⟨"g", [1], 0⟩, ⟨"g", [2], 0⟩] : List (BatchReport Nat)).filter
           (fun b => b.readings == [2])).length ∧
       (retry_offline_queue
          (⟨3, [], 2, [⟨"g", [1], 0⟩, ⟨"g", [2], 0⟩]⟩ : SensorBuffer Nat)
          (fun b => b.readings == [2])).1.failed =
         some ((([⟨"g", [1], 0⟩, ⟨"g", [2], 0⟩] : List (BatchReport Nat)).filter
           (fun b => !(b.readings == [2]))).length) ∧
       (retry_offline_queue
          (⟨3, [], 2, [⟨"g", [1], 0⟩, ⟨"g", [2], 0⟩]⟩ : SensorBuffer Nat)
          (fun b => b.readings == [2])).2.offline_queue =
         ([⟨"g", [1], 0⟩, ⟨"g", [2], 0⟩] : List (BatchReport Nat)).filter
           (fun b => !(b.readings == [2])) ∧
       (retry_offline_queue
          (⟨3, [], 2, [⟨"g", [1], 0⟩, ⟨"g", [2], 0⟩]⟩ : SensorBuffer Nat)
          (fun b => b.readings == [2])).1.uploaded +
         ((([⟨"g", [1], 0⟩, ⟨"g", [2], 0⟩] : List (BatchReport Nat)).filter
           (fun b => !(b.readings == [2]))).length) =
         ([⟨"g", [1], 0⟩, ⟨"g", [2], 0⟩] : List (BatchReport Nat)).length) :=
  ⟨by decide, retry_offline_queue_spec _ (fun b => b.readings == [2]) (by decide)⟩

/-- Counterexample to claim C5 as stated: with buffer `[5]`, the call
`get_readings(0)` should return the first `min(0, 1) = 0` entries, i.e.
`[]`; because of Python's `if limit:` truthiness test it returns the whole
buffer instead. -/
theorem get_readings_zero_limit_cex :
    get_readings (⟨2, [5], 1, []⟩ : SensorBuffer Nat) (some 0) ≠ [] := by
  decide

/-- Claim C5 (amended): for every positive limit `l`, `get_readings`
returns a copy of the first `min(l, length)` buffer entries in FIFO order;
with no limit it returns the whole buffer; a limit of `0` is treated like
no limit (full copy), not as "first zero entries". The call is pure: it
returns a fresh list and touches neither the buffer, the threshold, nor
the offline queue (in this embedding it does not return a state at all). -/
theorem get_readings_spec (st : SensorBuffer R) (l : Int) (h : 1 ≤ l) :
    get_readings st (some l) = st.buffer.take l.toNat ∧
    (get_readings st (some l)).length = min l.toNat st.buffer.length ∧
    get_readings st none = st.buffer ∧
    get_readings st (some 0) = st.buffer := by
  have h0 : ¬ (l = 0) := by omega
  have h1 : (0 : Int) < l := by omega
  simp [get_readings, h0, h1]

/-- Concrete instance of `get_readings_spec`: buffer `[5, 6]`, limit 1. -/
theorem get_readings_spec_witness :
    ((1 : Int) ≤ 1) ∧
      (get_readings (⟨2, [5, 6], 1, []⟩ : SensorBuffer Nat) (some 1) =
         ([5, 6] : List Nat).take (1 : Int).toNat ∧
       (get_readings (⟨2, [5, 6], 1, []⟩ : SensorBuffer Nat) (some 1)).length =
         min (1 : Int).toNat ([5, 6] : List Nat).length ∧
       get_readings (⟨2, [5, 6], 1, []⟩ : SensorBuffer Nat) none = [5, 6] ∧
       get_readings (⟨2, [5, 6], 1, []⟩ : SensorBuffer Nat) (some 0) = [5, 6]) :=
  ⟨by decide, get_readings_spec _ 1 (by decide)⟩

/-- Claim C6: `clear_readings n` on a buffer of length `L` removes exactly
`min(n, L)` entries from the front: the original buffer is that removed
prefix followed by the remaining buffer (so the survivors keep their
relative FIFO order), the new length is `L - min(n, L)`, and asking for
more than `L` is not an error — it just empties the buffer. -/
theorem clear_readings_spec (st : SensorBuffer R) (n : Nat) :
    st.buffer =
      st.buffer.take (min n st.buffer.length) ++ (clear_readings st n).buffer ∧
    (clear_readings st n).buffer.length =
      st.buffer.length - min n st.buffer.length ∧
    (st.buffer.length ≤ n → (clear_readings st n).buffer = []) := by
  simp only [clear_readings]
  refine ⟨(List.take_append_drop _ _).symm, by simp, ?_⟩
  intro hle
  simp [Nat.min_eq_right hle]

/-- Concrete instance of `clear_readings_spec`: clearing five readings from
the two-element buffer `[1, 2]` empties it. -/
theorem clear_readings_spec_witness :
    (([1, 2] : List Nat) =
      ([1, 2] : List Nat).take (min 5 ([1, 2] : List Nat).length) ++
        (clear_readings (⟨2, [1, 2], 1, []⟩ : SensorBuffer Nat) 5).buffer) ∧
    (clear_readings (⟨2, [1, 2], 1, []⟩ : SensorBuffer Nat) 5).buffer.length =
      ([1, 2] : List Nat).length - min 5 ([1, 2] : List Nat).length ∧
    (([1, 2] : List Nat).length ≤ 5 →
      (clear_readings (⟨2, [1, 2], 1, []⟩ : SensorBuffer Nat) 5).buffer = []) :=
  clear_readings_spec (⟨2, [1, 2], 1, []⟩ : SensorBuffer Nat) 5

/-- Counterexample to claim C7 as stated: queue `[b1]` with `b1` failing
again; during the pass's upload suspension a batch `b2 = ⟨"g", [2], 0⟩` is
appended concurrently and its upload succeeds. The claim demands that after
the pass the offline queue contain every concurrently appended batch, so
`b2` should be in it; in fact the loop (which iterates the live list)
uploads `b2` during the same pass and the final queue does not contain it. -/
theorem retry_concurrent_append_cex :
    (retry_offline_queue_concurrent
        (⟨3, [], 2, [⟨"g", [1], 0⟩]⟩ : SensorBuffer Nat)
        (fun b => b.readings == [2])
        [[⟨"g", [2], 0⟩]]).1.uploaded = 1 ∧
    (⟨"g", [2], 0⟩ : BatchReport Nat) ∉
      (retry_offline_queue_concurrent
        (⟨3, [], 2, [⟨"g", [1], 0⟩]⟩ : SensorBuffer Nat)
        (fun b => b.readings == [2])
        [[⟨"g", [2], 0⟩]]).2.offline_queue := by
  exact ⟨by decide, by decide⟩

/-- Claim C7 (amended): a batch appended to the offline queue concurrently
with a retry pass is never silently lost, but not by being retained
verbatim: because the loop iterates the live queue list, the appended batch
receives an upload attempt in the same pass. Afterwards the queue consists
of exactly the batches — original or concurrently appended — whose upload
failed in the pass (in order), and the uploaded count covers the successes
among both; an appended batch is therefore either uploaded or still queued.
(`apps` lists the batches appended at each iteration's suspension point; at
most one group can arrive per iteration of the original queue.) -/
theorem retry_concurrent_spec (st : SensorBuffer R) (ok : BatchReport R → Bool)
    (apps : List (List (BatchReport R))) (h1 : st.offline_queue ≠ [])
    (h2 : apps.length ≤ st.offline_queue.length) :
    (retry_offline_queue_concurrent st ok apps).2.offline_queue =
      st.offline_queue.filter (fun b => !ok b) ++
        apps.flatten.filter (fun b => !ok b) ∧
    (retry_offline_queue_concurrent st ok apps).1.uploaded =
      ((st.offline_queue ++ apps.flatten).filter ok).length := by
  have hne : st.offline_queue.isEmpty = false := by
    simp [List.isEmpty_iff, h1]
  simp [retry_offline_queue_concurrent, get_offline_queue, hne,
    retryLoopC_spec ok apps st.offline_queue 0 [] h2]

/-- Concrete instance of `retry_concurrent_spec`: queue `[⟨"g", [1], 0⟩]`
(failing again), one concurrent append of `⟨"g", [2], 0⟩` (uploading). -/
theorem retry_concurrent_spec_witness :
    (([⟨"g", [1], 0⟩] : List (BatchReport Nat)) ≠ []) ∧
      (([[⟨"g", [2], 0⟩]] : List (List (BatchReport Nat))).length ≤
        ([⟨"g", [1], 0⟩] : List (BatchReport Nat)).length) ∧
      ((retry_offline_queue_concurrent
          (⟨3, [], 2, [⟨"g", [1], 0⟩]⟩ : SensorBuffer Nat)
          (fun b => b.readings == [2])
          [[⟨"g", [2], 0⟩]]).2.offline_queue =
        ([⟨"g", [1], 0⟩] : List (BatchReport Nat)).filter
          (fun b => !(b.readings == [2])) ++
          ([[⟨"g", [2], 0⟩]] : List (List (BatchReport Nat))).flatten.filter
            (fun b => !(b.readings == [2])) ∧
       (retry_offline_queue_concurrent
          (⟨3, [], 2, [⟨"g", [1], 0⟩]⟩ : SensorBuffer Nat)
          (fun b => b.readings == [2])
          [[⟨"g", [2], 0⟩]]).1.uploaded =
        ((([⟨"g", [1], 0⟩] : List (BatchReport Nat)) ++
            ([[⟨"g", [2], 0⟩]] : List (List (BatchReport Nat))).flatten).filter
          (fun b => b.readings == [2])).length) :=
  ⟨by decide, by decide,
    retry_concurrent_spec _ (fun b => b.readings == [2]) [[⟨"g", [2], 0⟩]]
      (by decide) (by decide)⟩

/-- Claim C8: batch formation on an empty ingest buffer is refused with the
400 "Buffer is empty" outcome and the state is returned unchanged (neither
the buffer nor the offline queue is touched). The result does not depend on
`uploadOk`, i.e. no upload is ever attempted; the 400 is the caller-facing
"nothing to do" refusal, not a 5xx system fault. -/
theorem create_batch_empty_buffer (st : SensorBuffer R) (uploadOk : Bool)
    (now : Nat) (h : st.buffer = []) :
    (create_batch st uploadOk now).1 = .httpError 400 "Buffer is empty" ∧
    (create_batch st uploadOk now).2 = st := by
  simp [create_batch, h]

/-- Concrete instance of `create_batch_empty_buffer`: empty buffer, an
upload that would succeed if attempted. -/
theorem create_batch_empty_buffer_witness :
    (([] : List Nat) = []) ∧
      ((create_batch (⟨2, [], 1, []⟩ : SensorBuffer Nat) true 0).1 =
         .httpError 400 "Buffer is empty" ∧
       (create_batch (⟨2, [], 1, []⟩ : SensorBuffer Nat) true 0).2 =
         (⟨2, [], 1, []⟩ : SensorBuffer Nat)) :=
  ⟨rfl, create_batch_empty_buffer _ true 0 rfl⟩

/-- Counterexample to claim C9 as stated: on an empty offline queue the
handler returns `{"status": "no_batches", "uploaded": 0}` — the response
carries no `failed` field at all, so it does not report "zero failed". -/
theorem retry_empty_failed_cex :
    (retry_offline_queue (⟨3, [], 2, []⟩ : SensorBuffer Nat)
      (fun _ => true)).1.failed ≠ some 0 := by
  decide

/-- Claim C9 (amended): `retry_offline_queue` on an empty offline queue is
an idempotent no-op: called once or twice in a row it reports the
`no_batches` status with zero uploaded each time, performs no upload
attempts (the result does not consult the upload oracle), and leaves the
state — in particular the empty queue — unchanged; the empty queue is not
an error. The empty-queue response simply omits the failed count (it is
`none`, not `some 0`). -/
theorem retry_empty_idempotent (st : SensorBuffer R)
    (ok ok2 : BatchReport R → Bool) (h : st.offline_queue = []) :
    (retry_offline_queue st ok).1 =
      { status := "no_batches", uploaded := 0, failed := none } ∧
    (retry_offline_queue st ok).2 = st ∧
    (retry_offline_queue (retry_offline_queue st ok).2 ok2).1 =
      { status := "no_batches", uploaded := 0, failed := none } ∧
    (retry_offline_queue (retry_offline_queue st ok).2 ok2).2 = st := by
  have hq : st.offline_queue.isEmpty = true := by simp [h]
  simp [retry_offline_queue, get_offline_queue, hq]

/-- Concrete instance of `retry_empty_idempotent`: empty queue, two calls
with different upload oracles. -/
theorem retry_empty_idempotent_witness :
    (([] : List (BatchReport Nat)) = []) ∧
      ((retry_offline_queue (⟨3, [], 2, []⟩ : SensorBuffer Nat)
          (fun _ => true)).1 =
        { status := "no_batches", uploaded := 0, failed := none } ∧
       (retry_offline_queue (⟨3, [], 2, []⟩ : SensorBuffer Nat)
          (fun _ => true)).2 = (⟨3, [], 2, []⟩ : SensorBuffer Nat) ∧
       (retry_offline_queue
          (retry_offline_queue (⟨3, [], 2, []⟩ : SensorBuffer Nat)
            (fun _ => true)).2 (fun _ => false)).1 =
        { status := "no_batches", uploaded := 0, failed := none } ∧
       (retry_offline_queue
          (retry_offline_queue (⟨3, [], 2, []⟩ : SensorBuffer Nat)
            (fun _ => true)).2 (fun _ => false)).2 =
        (⟨3, [], 2, []⟩ : SensorBuffer Nat)) :=
  ⟨rfl, retry_empty_idempotent _ (fun _ => true) (fun _ => false) rfl⟩

/-- Claim C10: `retry_offline_queue` never touches the ingest side of the
state — for every starting state and every pattern of per-batch upload
outcomes, the ingest buffer (contents and order), the batch threshold and
the capacity are unchanged; only the offline queue is replaced. -/
theorem retry_preserves_ingest (st : SensorBuffer R)
    (ok : BatchReport R → Bool) :
    (retry_offline_queue st ok).2.buffer = st.buffer ∧
    (retry_offline_queue st ok).2.batch_threshold = st.batch_threshold ∧
    (retry_offline_queue st ok).2.max_size = st.max_size := by
  by_cases hq : st.offline_queue.isEmpty
  · simp [retry_offline_queue, get_offline_queue, hq]
  · simp only [Bool.not_eq_true] at hq
    simp [retry_offline_queue, get_offline_queue, hq]

end Nanoclaw
